import Mathlib

/-!
# Verification of the shasper network RPC codec and service layer

Shallow embedding of `src/blockchain/network/src/rpc/codec/ssz.rs` and
`src/blockchain/network/src/service.rs`. Bytes are modelled as `List Nat`
(each entry one octet). Machine integers are `Nat` with explicit bounds
where overflow matters. The `unsigned_varint::codec::UviBytes` framer and
the SSZ-encoded message types from `rpc/methods.rs` (not present under
`src/`) are modelled from the spec, as marked in their doc comments.
-/

deriving instance DecidableEq for Except

/-! ## Variable-length unsigned integer prefix (LEB128-style)

Modelled from the spec: the framer's length prefix is a variable-length
unsigned integer (`unsigned_varint` crate, not part of this repository). -/

/-- Structural worker for the varint encoder; `fuel` only bounds the
recursion depth and any `fuel ≥ n` gives the same digits. -/
def encodeUvarintAux : Nat → Nat → List Nat
  | 0, n => [n]
  | fuel + 1, n =>
    if n < 128 then [n]
    else (n % 128 + 128) :: encodeUvarintAux fuel (n / 128)

/-- Encode a natural number as a little-endian base-128 varint, seven bits
per byte, high bit marking continuation. -/
def encodeUvarint (n : Nat) : List Nat :=
  encodeUvarintAux n n

/-- Decode a varint from the front of a byte list, returning the value and
the remaining bytes; `none` when the bytes end before the varint does. -/
def decodeUvarint : List Nat → Option (Nat × List Nat)
  | [] => none
  | b :: rest =>
    if b < 128 then some (b, rest)
    else
      match decodeUvarint rest with
      | some (n, r) => some (b - 128 + 128 * n, r)
      | none => none

theorem decodeUvarint_encodeUvarintAux (fuel : Nat) : ∀ (n : Nat)
    (rest : List Nat), n ≤ fuel →
    decodeUvarint (encodeUvarintAux fuel n ++ rest) = some (n, rest) := by
  induction fuel with
  | zero =>
    intro n rest h
    interval_cases n
    simp [encodeUvarintAux, decodeUvarint]
  | succ fuel ih =>
    intro n rest h
    by_cases hn : n < 128
    · simp [encodeUvarintAux, decodeUvarint, hn]
    · have hrec : n / 128 ≤ fuel := by
        have : n / 128 < n := Nat.div_lt_self (by omega) (by omega)
        omega
      rw [encodeUvarintAux]
      simp only [hn, if_false, List.cons_append, decodeUvarint]
      have hge : ¬ (n % 128 + 128 < 128) := by omega
      simp only [hge, if_false, ih (n / 128) rest hrec]
      have : n % 128 + 128 - 128 + 128 * (n / 128) = n := by omega
      rw [this]

theorem decodeUvarint_encodeUvarint (n : Nat) (rest : List Nat) :
    decodeUvarint (encodeUvarint n ++ rest) = some (n, rest) :=
  decodeUvarint_encodeUvarintAux n n rest (Nat.le_refl n)

/-! ## The UviBytes framer -/

/-- Framer state: the configured maximum frame length, as set by
`set_max_len`.  Modelled from the spec: a configured maximum frame length
bounds buffering. -/
structure UviBytes where
  maxLen : Nat
deriving DecidableEq

/-- Errors of the codec layer.  `ssz.rs` maps framer errors through
`RPCError::from` and produces `RPCError::InvalidProtocol` itself; parse
failures of the SSZ payload surface via `?`.  Constructors for the framer
and parse cases are modelled from the spec's error taxonomy
(`FramingViolation`, `DeserializationFailure`); `rpc/protocol.rs` is not
present under `src/`. -/
inductive RPCError where
  | invalidProtocol (msg : String)
  | framingViolation
  | deserializationFailure
deriving DecidableEq

/-- Decode one frame: read the varint length prefix, fail when the declared
length exceeds `maxLen`, otherwise wait (`ok none`) until the declared
number of payload bytes is present and return payload and remainder.
Modelled from the spec: the Framer contract of §4.1. -/
def uviDecode (u : UviBytes) (src : List Nat) :
    Except RPCError (Option (List Nat × List Nat)) :=
  match decodeUvarint src with
  | none => .ok none
  | some (len, rest) =>
    if u.maxLen < len then .error .framingViolation
    else if rest.length < len then .ok none
    else .ok (some (rest.take len, rest.drop len))

/-- Encode one frame: varint length prefix followed by the payload.
Modelled from the spec: the Framer contract of §4.1. -/
def uviEncode (payload : List Nat) : List Nat :=
  encodeUvarint payload.length ++ payload

theorem uviDecode_uviEncode (u : UviBytes) (payload : List Nat)
    (h : payload.length ≤ u.maxLen) :
    uviDecode u (uviEncode payload) = .ok (some (payload, [])) := by
  unfold uviDecode uviEncode
  rw [decodeUvarint_encodeUvarint]
  have h1 : ¬ (u.maxLen < payload.length) := by omega
  simp [h1]

/-- An oversize declared length fails with a framing violation no matter
what payload bytes follow. -/
theorem uviDecode_oversize (u : UviBytes) (len : Nat) (extra : List Nat)
    (h : u.maxLen < len) :
    uviDecode u (encodeUvarint len ++ extra) = .error .framingViolation := by
  unfold uviDecode
  rw [decodeUvarint_encodeUvarint]
  simp [h]

/-! ## Fixed-width little-endian words

Modelled from the spec: the SSZ serialization of the fixed-size numeric
fields of the request messages (`rpc/methods.rs` is not present under
`src/`); little-endian fixed-width words, eight octets per field. -/

/-- Little-endian byte rendering of `n` in `k` octets. -/
def bytesLE : Nat → Nat → List Nat
  | 0, _ => []
  | k + 1, n => n % 256 :: bytesLE k (n / 256)

/-- Read a `k`-octet little-endian word from the front of a byte list. -/
def readLE : Nat → List Nat → Option (Nat × List Nat)
  | 0, rest => some (0, rest)
  | _ + 1, [] => none
  | k + 1, b :: rest =>
    match readLE k rest with
    | some (v, r) => some (b + 256 * v, r)
    | none => none

theorem readLE_bytesLE (k : Nat) : ∀ (n : Nat) (rest : List Nat),
    n < 256 ^ k → readLE k (bytesLE k n ++ rest) = some (n, rest) := by
  induction k with
  | zero =>
    intro n rest h
    simp only [Nat.pow_zero, Nat.lt_one_iff] at h
    subst h
    simp [bytesLE, readLE]
  | succ k ih =>
    intro n rest h
    have hdiv : n / 256 < 256 ^ k := by
      rw [Nat.div_lt_iff_lt_mul (by omega)]
      calc n < 256 ^ (k + 1) := h
        _ = 256 ^ k * 256 := by ring
    simp only [bytesLE, List.cons_append, List.append_eq, readLE,
      ih (n / 256) rest hdiv]
    have : n % 256 + 256 * (n / 256) = n := by omega
    rw [this]

theorem bytesLE_length (k n : Nat) : (bytesLE k n).length = k := by
  induction k generalizing n with
  | zero => simp [bytesLE]
  | succ k ih => simp [bytesLE, ih]

/-! ## Request and response message types

Modelled from the spec: `rpc/methods.rs` is not present under `src/`.  The
spec gives Hello the handshake fields protocol version, network id and
chain head descriptors (modelled as a head root and a head slot), Goodbye a
disconnect reason code, BeaconBlocksRequest a start/count/step range query,
and RecentBeaconBlocksRequest an explicit list of block identifiers.  All
numeric fields are 64-bit words; block identifiers are modelled as 64-bit
words as well.  SSZ renders each field little-endian, fixed width, in
declaration order, and a decode must consume the packet exactly. -/

/-- Hello handshake message. -/
structure HelloMessage where
  version : Nat
  networkId : Nat
  headRoot : Nat
  headSlot : Nat
deriving DecidableEq

def HelloMessage.encode (m : HelloMessage) : List Nat :=
  bytesLE 8 m.version ++ bytesLE 8 m.networkId ++
    bytesLE 8 m.headRoot ++ bytesLE 8 m.headSlot

def HelloMessage.decode (bs : List Nat) : Option HelloMessage :=
  match readLE 8 bs with
  | none => none
  | some (v, r1) =>
    match readLE 8 r1 with
    | none => none
    | some (ni, r2) =>
      match readLE 8 r2 with
      | none => none
      | some (hr, r3) =>
        match readLE 8 r3 with
        | none => none
        | some (hs, r4) =>
          if r4 = [] then some ⟨v, ni, hr, hs⟩ else none

/-- Goodbye disconnect reason code. -/
structure GoodbyeReason where
  reason : Nat
deriving DecidableEq

def GoodbyeReason.encode (g : GoodbyeReason) : List Nat :=
  bytesLE 8 g.reason

def GoodbyeReason.decode (bs : List Nat) : Option GoodbyeReason :=
  match readLE 8 bs with
  | none => none
  | some (r, rest) => if rest = [] then some ⟨r⟩ else none

/-- Block range query. -/
structure BeaconBlocksRequest where
  startSlot : Nat
  count : Nat
  step : Nat
deriving DecidableEq

def BeaconBlocksRequest.encode (b : BeaconBlocksRequest) : List Nat :=
  bytesLE 8 b.startSlot ++ bytesLE 8 b.count ++ bytesLE 8 b.step

def BeaconBlocksRequest.decode (bs : List Nat) : Option BeaconBlocksRequest :=
  match readLE 8 bs with
  | none => none
  | some (s, r1) =>
    match readLE 8 r1 with
    | none => none
    | some (c, r2) =>
      match readLE 8 r2 with
      | none => none
      | some (st, r3) => if r3 = [] then some ⟨s, c, st⟩ else none

/-- Explicit list of requested block identifiers. -/
structure RecentBeaconBlocksRequest where
  blockRoots : List Nat
deriving DecidableEq

/-- Decode a packet as a sequence of 8-octet words, consuming it exactly. -/
def decodeRootList : List Nat → Option (List Nat)
  | [] => some []
  | b0 :: b1 :: b2 :: b3 :: b4 :: b5 :: b6 :: b7 :: rest =>
    match decodeRootList rest with
    | some vs =>
      some ((b0 + 256 * (b1 + 256 * (b2 + 256 * (b3 + 256 * (b4 + 256 *
        (b5 + 256 * (b6 + 256 * b7))))))) :: vs)
    | none => none
  | _ => none

def RecentBeaconBlocksRequest.encode (r : RecentBeaconBlocksRequest) :
    List Nat :=
  (r.blockRoots.map (bytesLE 8)).flatten

def RecentBeaconBlocksRequest.decode (bs : List Nat) :
    Option RecentBeaconBlocksRequest :=
  (decodeRootList bs).map (fun vs => ⟨vs⟩)

/-- Error payload carried by the three error variants: raw message bytes.
Modelled from the spec: the error variants carry a message; decoding raw
bytes always succeeds. -/
structure ErrorMessage where
  errorMessage : List Nat
deriving DecidableEq

def ErrorMessage.encode (e : ErrorMessage) : List Nat :=
  e.errorMessage

def ErrorMessage.decode (bs : List Nat) : Option ErrorMessage :=
  some ⟨bs⟩

/-- Requests, as dispatched by `ssz.rs`. -/
inductive RPCRequest where
  | hello (msg : HelloMessage)
  | goodbye (reason : GoodbyeReason)
  | beaconBlocks (req : BeaconBlocksRequest)
  | recentBeaconBlocks (req : RecentBeaconBlocksRequest)
deriving DecidableEq

/-- Responses: Hello echoes the handshake shape; the two block responses
carry already-encoded opaque bytes. -/
inductive RPCResponse where
  | hello (msg : HelloMessage)
  | beaconBlocks (bytes : List Nat)
  | recentBeaconBlocks (bytes : List Nat)
deriving DecidableEq

/-- Encode-direction error response union. -/
inductive RPCErrorResponse where
  | success (resp : RPCResponse)
  | invalidRequest (err : ErrorMessage)
  | serverError (err : ErrorMessage)
  | unknown (err : ErrorMessage)
deriving DecidableEq

/-- Protocol identity triple. -/
structure ProtocolId where
  messageName : String
  version : String
  encoding : String
deriving DecidableEq

/-! ### Round-trip lemmas for the modelled SSZ payloads -/

theorem readLE_bytesLE_nil (n : Nat) (h : n < 256 ^ 8) :
    readLE 8 (bytesLE 8 n) = some (n, []) := by
  have := readLE_bytesLE 8 n [] h
  simpa using this

theorem hello_decode_encode (m : HelloMessage)
    (h1 : m.version < 256 ^ 8) (h2 : m.networkId < 256 ^ 8)
    (h3 : m.headRoot < 256 ^ 8) (h4 : m.headSlot < 256 ^ 8) :
    HelloMessage.decode (HelloMessage.encode m) = some m := by
  have e1 : ∀ rest, readLE 8 (bytesLE 8 m.version ++ rest)
      = some (m.version, rest) := fun rest => readLE_bytesLE 8 _ rest h1
  have e2 : ∀ rest, readLE 8 (bytesLE 8 m.networkId ++ rest)
      = some (m.networkId, rest) := fun rest => readLE_bytesLE 8 _ rest h2
  have e3 : ∀ rest, readLE 8 (bytesLE 8 m.headRoot ++ rest)
      = some (m.headRoot, rest) := fun rest => readLE_bytesLE 8 _ rest h3
  have e4 : readLE 8 (bytesLE 8 m.headSlot) = some (m.headSlot, []) :=
    readLE_bytesLE_nil _ h4
  unfold HelloMessage.encode HelloMessage.decode
  simp [List.append_assoc, e1, e2, e3, e4]

theorem goodbye_reason_decode_encode (g : GoodbyeReason)
    (h : g.reason < 256 ^ 8) :
    GoodbyeReason.decode (GoodbyeReason.encode g) = some g := by
  unfold GoodbyeReason.encode GoodbyeReason.decode
  simp [readLE_bytesLE_nil _ h]

theorem beacon_blocks_decode_encode (b : BeaconBlocksRequest)
    (h1 : b.startSlot < 256 ^ 8) (h2 : b.count < 256 ^ 8)
    (h3 : b.step < 256 ^ 8) :
    BeaconBlocksRequest.decode (BeaconBlocksRequest.encode b) = some b := by
  have e1 : ∀ rest, readLE 8 (bytesLE 8 b.startSlot ++ rest)
      = some (b.startSlot, rest) := fun rest => readLE_bytesLE 8 _ rest h1
  have e2 : ∀ rest, readLE 8 (bytesLE 8 b.count ++ rest)
      = some (b.count, rest) := fun rest => readLE_bytesLE 8 _ rest h2
  have e3 : readLE 8 (bytesLE 8 b.step) = some (b.step, []) :=
    readLE_bytesLE_nil _ h3
  unfold BeaconBlocksRequest.encode BeaconBlocksRequest.decode
  simp [List.append_assoc, e1, e2, e3]

theorem decodeRootList_cons (r : Nat) (tail : List Nat) (h : r < 256 ^ 8) :
    decodeRootList (bytesLE 8 r ++ tail)
      = (decodeRootList tail).map (fun vs => r :: vs) := by
  have hb : bytesLE 8 r = [r % 256, r / 256 % 256, r / 256 ^ 2 % 256,
      r / 256 ^ 3 % 256, r / 256 ^ 4 % 256, r / 256 ^ 5 % 256,
      r / 256 ^ 6 % 256, r / 256 ^ 7 % 256] := by
    show bytesLE 8 r = _
    simp [bytesLE, Nat.div_div_eq_div_mul, pow_succ]
  rw [hb]
  simp only [List.cons_append, List.nil_append, decodeRootList]
  have hr : r % 256 + 256 * (r / 256 % 256 + 256 * (r / 256 ^ 2 % 256 +
      256 * (r / 256 ^ 3 % 256 + 256 * (r / 256 ^ 4 % 256 + 256 *
      (r / 256 ^ 5 % 256 + 256 * (r / 256 ^ 6 % 256 + 256 *
      (r / 256 ^ 7 % 256))))))) = r := by
    have h8 : r / 256 ^ 7 % 256 = r / 256 ^ 7 := by
      apply Nat.mod_eq_of_lt
      apply Nat.div_lt_of_lt_mul
      calc r < 256 ^ 8 := h
        _ = 256 ^ 7 * 256 := by ring
    rw [h8]
    omega
  rw [hr]
  cases hcase : decodeRootList tail <;> simp [hcase]

theorem recent_blocks_decode_encode (r : RecentBeaconBlocksRequest)
    (h : ∀ x ∈ r.blockRoots, x < 256 ^ 8) :
    RecentBeaconBlocksRequest.decode (RecentBeaconBlocksRequest.encode r)
      = some r := by
  obtain ⟨roots⟩ := r
  unfold RecentBeaconBlocksRequest.encode RecentBeaconBlocksRequest.decode
  simp only at h ⊢
  have : decodeRootList ((roots.map (bytesLE 8)).flatten) = some roots := by
    induction roots with
    | nil => simp [decodeRootList]
    | cons x xs ih =>
      have hx : x < 256 ^ 8 := h x (by simp)
      have hxs : ∀ y ∈ xs, y < 256 ^ 8 := fun y hy => h y (by simp [hy])
      simp [List.map_cons, List.flatten_cons, decodeRootList_cons x _ hx,
        ih hxs]
  rw [this]
  rfl

/-! ## The SSZ inbound codec (responder role)

Translated from `src/blockchain/network/src/rpc/codec/ssz.rs`. -/

/-- Inbound codec state: the framer and the negotiated protocol identity. -/
structure SSZInboundCodec where
  inner : UviBytes
  protocol : ProtocolId
deriving DecidableEq

/-- Codec construction (`SSZInboundCodec::new`).  The source carries
`debug_assert!(protocol.encoding.as_str() == "ssz")`; the assertion is
modelled as `none` on violation. -/
def SSZInboundCodec.new (protocol : ProtocolId) (maxPacketSize : Nat) :
    Option SSZInboundCodec :=
  if protocol.encoding = "ssz" then some ⟨⟨maxPacketSize⟩, protocol⟩
  else none

/-- Inbound encode (`impl Encoder for SSZInboundCodec`): serialize an
error response; Hello responses pass through SSZ, the block responses are
already raw bytes and are forwarded unchanged; a non-empty payload is
length-prefixed, an empty one produces no wire bytes at all. -/
def SSZInboundCodec.encode (_c : SSZInboundCodec) (item : RPCErrorResponse) :
    List Nat :=
  let bytes := match item with
    | .success resp =>
      match resp with
      | .hello res => res.encode
      | .beaconBlocks res => res
      | .recentBeaconBlocks res => res
    | .invalidRequest err => err.encode
    | .serverError err => err.encode
    | .unknown err => err.encode
  if bytes ≠ [] then uviEncode bytes else []

/-- Inbound decode (`impl Decoder for SSZInboundCodec`): read one frame via
the framer and parse it as the request variant selected by the protocol
identity.  The outer `Option` models the `unreachable!` branches for
unknown protocol names or versions: `none` is the panic. -/
def SSZInboundCodec.decode (c : SSZInboundCodec) (src : List Nat) :
    Option (Except RPCError (Option RPCRequest)) :=
  match uviDecode c.inner src with
  | .error e => some (.error e)
  | .ok none => some (.ok none)
  | .ok (some (packet, _)) =>
    match c.protocol.messageName with
    | "hello" =>
      match c.protocol.version with
      | "1" =>
        some (match HelloMessage.decode packet with
          | some m => .ok (some (.hello m))
          | none => .error .deserializationFailure)
      | _ => none
    | "goodbye" =>
      match c.protocol.version with
      | "1" =>
        some (match GoodbyeReason.decode packet with
          | some g => .ok (some (.goodbye g))
          | none => .error .deserializationFailure)
      | _ => none
    | "beacon_blocks" =>
      match c.protocol.version with
      | "1" =>
        some (match BeaconBlocksRequest.decode packet with
          | some b => .ok (some (.beaconBlocks b))
          | none => .error .deserializationFailure)
      | _ => none
    | "recent_beacon_blocks" =>
      match c.protocol.version with
      | "1" =>
        some (match RecentBeaconBlocksRequest.decode packet with
          | some r => .ok (some (.recentBeaconBlocks r))
          | none => .error .deserializationFailure)
      | _ => none
    | _ => none

/-! ## The SSZ outbound codec (requester role) -/

/-- Outbound codec state. -/
structure SSZOutboundCodec where
  inner : UviBytes
  protocol : ProtocolId
deriving DecidableEq

/-- Codec construction (`SSZOutboundCodec::new`); the debug assertion on
the encoding is modelled as `none` on violation. -/
def SSZOutboundCodec.new (protocol : ProtocolId) (maxPacketSize : Nat) :
    Option SSZOutboundCodec :=
  if protocol.encoding = "ssz" then some ⟨⟨maxPacketSize⟩, protocol⟩
  else none

/-- Outbound encode (`impl Encoder for SSZOutboundCodec`): serialize the
request by its variant and length-prefix it, unconditionally. -/
def SSZOutboundCodec.encode (_c : SSZOutboundCodec) (item : RPCRequest) :
    List Nat :=
  let bytes := match item with
    | .hello req => req.encode
    | .goodbye req => req.encode
    | .beaconBlocks req => req.encode
    | .recentBeaconBlocks req => req.encode
  uviEncode bytes

/-- Outbound decode (`impl Decoder for SSZOutboundCodec`): interpret a
received frame as the response variant implied by the identity; on a
framer result of "no frame", hello yields no result, goodbye is a
protocol-misuse error, and the two block protocols yield a response with
an empty payload.  The outer `Option` models the `unreachable!` branches:
`none` is the panic. -/
def SSZOutboundCodec.decode (c : SSZOutboundCodec) (src : List Nat) :
    Option (Except RPCError (Option RPCResponse)) :=
  match uviDecode c.inner src with
  | .error e => some (.error e)
  | .ok (some (packet, _)) =>
    match c.protocol.messageName with
    | "hello" =>
      match c.protocol.version with
      | "1" =>
        some (match HelloMessage.decode packet with
          | some m => .ok (some (.hello m))
          | none => .error .deserializationFailure)
      | _ => none
    | "goodbye" =>
      some (.error (.invalidProtocol "GOODBYE has no response"))
    | "beacon_blocks" =>
      match c.protocol.version with
      | "1" => some (.ok (some (.beaconBlocks packet)))
      | _ => none
    | "recent_beacon_blocks" =>
      match c.protocol.version with
      | "1" => some (.ok (some (.recentBeaconBlocks packet)))
      | _ => none
    | _ => none
  | .ok none =>
    match c.protocol.messageName with
    | "hello" =>
      match c.protocol.version with
      | "1" => some (.ok none)
      | _ => none
    | "goodbye" =>
      some (.error (.invalidProtocol "GOODBYE has no response"))
    | "beacon_blocks" =>
      match c.protocol.version with
      | "1" => some (.ok (some (.beaconBlocks [])))
      | _ => none
    | "recent_beacon_blocks" =>
      match c.protocol.version with
      | "1" => some (.ok (some (.recentBeaconBlocks [])))
      | _ => none
    | _ => none

/-- Out-of-band error decode (`impl OutboundCodec for SSZOutboundCodec`,
`decode_error`): read one frame and parse it as an `ErrorMessage`; the
protocol identity is not consulted. -/
def SSZOutboundCodec.decodeError (c : SSZOutboundCodec) (src : List Nat) :
    Except RPCError (Option ErrorMessage) :=
  match uviDecode c.inner src with
  | .error e => .error e
  | .ok none => .ok none
  | .ok (some (packet, _)) =>
    match ErrorMessage.decode packet with
    | some m => .ok (some m)
    | none => .error .deserializationFailure

/-! ## Spec-side helpers for stating the claims -/

/-- The SSZ payload bytes of a request, per variant. -/
def requestPayload : RPCRequest → List Nat
  | .hello req => req.encode
  | .goodbye req => req.encode
  | .beaconBlocks req => req.encode
  | .recentBeaconBlocks req => req.encode

/-- The payload bytes of an error response, per variant. -/
def errorResponsePayload : RPCErrorResponse → List Nat
  | .success (.hello res) => res.encode
  | .success (.beaconBlocks res) => res
  | .success (.recentBeaconBlocks res) => res
  | .invalidRequest err => err.encode
  | .serverError err => err.encode
  | .unknown err => err.encode

/-- The protocol identity matching a request variant, at version 1 on the
ssz encoding. -/
def requestProtocol : RPCRequest → ProtocolId
  | .hello _ => ⟨"hello", "1", "ssz"⟩
  | .goodbye _ => ⟨"goodbye", "1", "ssz"⟩
  | .beaconBlocks _ => ⟨"beacon_blocks", "1", "ssz"⟩
  | .recentBeaconBlocks _ => ⟨"recent_beacon_blocks", "1", "ssz"⟩

/-- All numeric fields of a request fit in 64 bits. -/
def requestFieldsBounded : RPCRequest → Bool
  | .hello m => decide (m.version < 256 ^ 8) && decide (m.networkId < 256 ^ 8)
      && decide (m.headRoot < 256 ^ 8) && decide (m.headSlot < 256 ^ 8)
  | .goodbye g => decide (g.reason < 256 ^ 8)
  | .beaconBlocks b => decide (b.startSlot < 256 ^ 8)
      && decide (b.count < 256 ^ 8) && decide (b.step < 256 ^ 8)
  | .recentBeaconBlocks r => r.blockRoots.all (fun x => decide (x < 256 ^ 8))

/-- The four known protocol identities at version 1. -/
def knownIdentityPairs : List (String × String) :=
  [("hello", "1"), ("goodbye", "1"), ("beacon_blocks", "1"),
   ("recent_beacon_blocks", "1")]

/-! ## The network service

Translated from `src/blockchain/network/src/service.rs`.  Peer
identifiers, topic hashes, gossip message bodies and RPC events are
externally owned opaque values; they are modelled as plain numbers. -/

/-- Opaque peer identifier. -/
abbrev PeerId := Nat

/-- Opaque gossip topic hash. -/
abbrev TopicHash := Nat

/-- Opaque gossip message body (`behaviour::PubsubMessage`). -/
abbrev PubsubData := Nat

/-- Opaque RPC protocol event. -/
abbrev RPCEvent := Nat

/-- Events the composed behaviour can yield to the service.  Modelled from
the spec: `behaviour.rs` is not present under `src/`; the variants are the
ones matched by `Service::poll`. -/
inductive BehaviourEvent where
  | gossipMessage (source : PeerId) (topics : List TopicHash)
      (message : PubsubData)
  | rpc (peer : PeerId) (event : RPCEvent)
  | peerDialed (peer : PeerId)
  | peerDisconnected (peer : PeerId)
deriving DecidableEq

/-- The normalized event union exposed by the service (`Libp2pEvent`). -/
inductive Libp2pEvent where
  | rpc (peer : PeerId) (event : RPCEvent)
  | peerDialed (peer : PeerId)
  | peerDisconnected (peer : PeerId)
  | pubsubMessage (source : PeerId) (topics : List TopicHash)
      (message : PubsubData)
deriving DecidableEq

/-- One outcome of polling the underlying swarm stream. -/
inductive SwarmPoll where
  | readySome (event : BehaviourEvent)
  | readyNone
  | notReady
  | errored
deriving DecidableEq

/-- What one call to `Service::poll` hands its consumer.  `panicked`
models the `unreachable!` on the swarm stream ending; `errorResult` and
`endOfStream` are the stream-contract outcomes the implementation never
produces. -/
inductive ServicePollResult where
  | ready (event : Libp2pEvent)
  | notReady
  | endOfStream
  | errorResult
  | panicked
deriving DecidableEq

/-- One call of `impl Stream for Service::poll`, driven by the underlying
swarm's current poll outcome.  Every arm of the source's match either
returns or breaks, so a single swarm outcome determines the result: a
ready behaviour event is re-emitted as the matching `Libp2pEvent`; the
swarm stream ending hits `unreachable!`; "not ready" and a swarm error
both fall through to `Ok(Async::NotReady)`. -/
def servicePoll : SwarmPoll → ServicePollResult
  | .readySome (.gossipMessage source topics message) =>
    .ready (.pubsubMessage source topics message)
  | .readySome (.rpc peer event) => .ready (.rpc peer event)
  | .readySome (.peerDialed peer) => .ready (.peerDialed peer)
  | .readySome (.peerDisconnected peer) => .ready (.peerDisconnected peer)
  | .readyNone => .panicked
  | .notReady => .notReady
  | .errored => .notReady

/-- Is the poll result a stream error handed to the consumer? -/
def ServicePollResult.isErrorResult : ServicePollResult → Bool
  | .errorResult => true
  | _ => false

/-- Is the poll result a normal end-of-stream item? -/
def ServicePollResult.isEndOfStream : ServicePollResult → Bool
  | .endOfStream => true
  | _ => false

/-! ### Service startup -/

/-- The configuration consumed by `Service::new`.  Addresses are opaque
strings. -/
structure NetworkConfig where
  listenAddress : String
  libp2pPort : Nat
  libp2pNodes : List String
  topics : List String
deriving DecidableEq

/-- Outcomes of the environment-dependent startup steps: whether the
listen bind succeeds, whether a dial to a given address succeeds, and
whether a subscription to a given topic succeeds.  Dial failure and
subscription failure are per-item observations the service only logs. -/
structure NetEnv where
  listenOk : Bool
  dialOk : String → Bool
  subscribeOk : String → Bool

/-- What a completed startup did: every dial attempted, every topic whose
subscription was attempted, and the topics actually subscribed. -/
structure ServiceReport where
  dialAttempts : List String
  attemptedTopics : List String
  subscribedTopics : List String
deriving DecidableEq

/-- Gossip topic name prefix.  Modelled from the spec: `config.rs` is not
present under `src/`; the spec fixes only the `/prefix/topic/postfix`
shape, not the constant values. -/
def topicPrefixStr : String := "eth2"

/-- Gossip topic encoding suffix; modelled from the spec like the prefix. -/
def topicPostfixStr : String := "ssz"

/-- Core topic names; modelled from the spec's list of fixed core topics. -/
def BEACON_BLOCK_TOPIC : String := "block"

def BEACON_ATTESTATION_TOPIC : String := "attestation"

def VOLUNTARY_EXIT_TOPIC : String := "voluntary-exit"

def PROPOSER_SLASHING_TOPIC : String := "proposer-slashing"

def ATTESTER_SLASHING_TOPIC : String := "attester-slashing"

/-- The topic builder closure of `Service::new`: wrap a core topic name in
the prefix and the encoding suffix. -/
def topicBuilder (topic : String) : String :=
  "/" ++ topicPrefixStr ++ "/" ++ topic ++ "/" ++ topicPostfixStr

/-- The full subscription list built by `Service::new`: the five built
core topics followed by the operator-configured extra topic names, which
the source passes to `Topic::new` verbatim. -/
def serviceTopics (config : NetworkConfig) : List String :=
  [topicBuilder BEACON_BLOCK_TOPIC,
   topicBuilder BEACON_ATTESTATION_TOPIC,
   topicBuilder VOLUNTARY_EXIT_TOPIC,
   topicBuilder PROPOSER_SLASHING_TOPIC,
   topicBuilder ATTESTER_SLASHING_TOPIC] ++ config.topics

/-- Startup (`Service::new`): a failed listen bind aborts with an error;
otherwise every configured peer address is dialed exactly once (outcomes
only logged), and a subscription is attempted for every topic in
`serviceTopics`, keeping the ones that succeed. -/
def serviceNew (env : NetEnv) (config : NetworkConfig) :
    Except String ServiceReport :=
  if env.listenOk then
    .ok { dialAttempts := config.libp2pNodes,
          attemptedTopics := serviceTopics config,
          subscribedTopics := (serviceTopics config).filter env.subscribeOk }
  else
    .error "Libp2p was unable to listen on the given listen address."

/-- Does a topic string have the `/prefix/topic/postfix` shape, i.e. is it
`"/" ++ p ++ "/" ++ t ++ "/" ++ e` for some strings `p`, `t`, `e`?  A
string has that shape exactly when it starts with a slash and contains at
least three slashes. -/
def hasTopicForm (s : String) : Bool :=
  (s.data.head? == some (Char.ofNat 47))
    && decide (3 ≤ s.data.count (Char.ofNat 47))

/-! ## Helper lemmas shared by the claim theorems -/

/-- Is a codec result a failure (an `Err` value)? -/
def exceptIsError {α : Type} (r : Except RPCError α) : Bool :=
  match r with
  | .error _ => true
  | .ok _ => false

theorem inbound_decode_known_isSome (p : ProtocolId) (maxLen : Nat)
    (src : List Nat) (h : (p.messageName, p.version) ∈ knownIdentityPairs) :
    (SSZInboundCodec.decode ⟨⟨maxLen⟩, p⟩ src).isSome = true := by
  simp only [knownIdentityPairs, List.mem_cons, List.mem_singleton,
    Prod.mk.injEq, List.not_mem_nil, or_false] at h
  rcases h with ⟨h1, h2⟩ | ⟨h1, h2⟩ | ⟨h1, h2⟩ | ⟨h1, h2⟩ <;>
    (cases hu : uviDecode ⟨maxLen⟩ src with
     | error e => simp [SSZInboundCodec.decode, hu]
     | ok o =>
       cases o with
       | none => simp [SSZInboundCodec.decode, hu]
       | some pr =>
         obtain ⟨packet, rest⟩ := pr
         simp [SSZInboundCodec.decode, hu, h1, h2])

theorem outbound_decode_known_isSome (p : ProtocolId) (maxLen : Nat)
    (src : List Nat) (h : (p.messageName, p.version) ∈ knownIdentityPairs) :
    (SSZOutboundCodec.decode ⟨⟨maxLen⟩, p⟩ src).isSome = true := by
  simp only [knownIdentityPairs, List.mem_cons, List.mem_singleton,
    Prod.mk.injEq, List.not_mem_nil, or_false] at h
  rcases h with ⟨h1, h2⟩ | ⟨h1, h2⟩ | ⟨h1, h2⟩ | ⟨h1, h2⟩ <;>
    (cases hu : uviDecode ⟨maxLen⟩ src with
     | error e => simp [SSZOutboundCodec.decode, hu]
     | ok o =>
       cases o with
       | none => simp [SSZOutboundCodec.decode, hu, h1, h2]
       | some pr =>
         obtain ⟨packet, rest⟩ := pr
         simp [SSZOutboundCodec.decode, hu, h1, h2])

/-! ## Claim theorems -/

/-- Claim C1: for every protocol identity among hello/1, goodbye/1,
beacon_blocks/1 and recent_beacon_blocks/1 and every request of the
matching variant, encoding with the outbound codec and decoding the
produced bytes with the inbound codec configured with the same identity
yields the same request, every field equal — provided the fields fit
their 64-bit wire width and the frame fits the configured maximum. -/
theorem roundtrip_request_encode_decode (req : RPCRequest) (maxLen : Nat)
    (hb : requestFieldsBounded req = true)
    (hl : (requestPayload req).length ≤ maxLen) :
    SSZInboundCodec.decode ⟨⟨maxLen⟩, requestProtocol req⟩
      (SSZOutboundCodec.encode ⟨⟨maxLen⟩, requestProtocol req⟩ req)
      = some (.ok (some req)) := by
  cases req with
  | hello m =>
    simp only [requestFieldsBounded, Bool.and_eq_true, decide_eq_true_eq] at hb
    obtain ⟨⟨⟨h1, h2⟩, h3⟩, h4⟩ := hb
    simp only [requestPayload] at hl
    simp [SSZOutboundCodec.encode, SSZInboundCodec.decode, requestProtocol,
      uviDecode_uviEncode ⟨maxLen⟩ _ hl,
      hello_decode_encode m h1 h2 h3 h4]
  | goodbye g =>
    simp only [requestFieldsBounded, decide_eq_true_eq] at hb
    simp only [requestPayload] at hl
    simp [SSZOutboundCodec.encode, SSZInboundCodec.decode, requestProtocol,
      uviDecode_uviEncode ⟨maxLen⟩ _ hl, goodbye_reason_decode_encode g hb]
  | beaconBlocks b =>
    simp only [requestFieldsBounded, Bool.and_eq_true, decide_eq_true_eq] at hb
    obtain ⟨⟨h1, h2⟩, h3⟩ := hb
    simp only [requestPayload] at hl
    simp [SSZOutboundCodec.encode, SSZInboundCodec.decode, requestProtocol,
      uviDecode_uviEncode ⟨maxLen⟩ _ hl,
      beacon_blocks_decode_encode b h1 h2 h3]
  | recentBeaconBlocks r =>
    simp only [requestFieldsBounded, List.all_eq_true,
      decide_eq_true_eq] at hb
    simp only [requestPayload] at hl
    simp [SSZOutboundCodec.encode, SSZInboundCodec.decode, requestProtocol,
      uviDecode_uviEncode ⟨maxLen⟩ _ hl,
      recent_blocks_decode_encode r hb]

/-- Witness for C1 at a concrete hello request. -/
theorem roundtrip_request_encode_decode_witness :
    requestFieldsBounded (.hello ⟨1, 7, 3, 5⟩) = true ∧
    (requestPayload (.hello ⟨1, 7, 3, 5⟩)).length ≤ 100 ∧
    SSZInboundCodec.decode ⟨⟨100⟩, requestProtocol (.hello ⟨1, 7, 3, 5⟩)⟩
      (SSZOutboundCodec.encode ⟨⟨100⟩, requestProtocol (.hello ⟨1, 7, 3, 5⟩)⟩
        (.hello ⟨1, 7, 3, 5⟩))
      = some (.ok (some (.hello ⟨1, 7, 3, 5⟩))) :=
  ⟨by decide, by decide,
    roundtrip_request_encode_decode (.hello ⟨1, 7, 3, 5⟩) 100
      (by decide) (by decide)⟩

/-- Claim C2: when the framer yields no complete frame (stream end with
zero frames), the outbound codec answers an empty `BeaconBlocks` or
`RecentBeaconBlocks` response on the two block identities, and no result
at all on hello/1. -/
theorem outbound_decode_stream_end (maxLen : Nat) (src : List Nat)
    (h : uviDecode ⟨maxLen⟩ src = .ok none) :
    SSZOutboundCodec.decode ⟨⟨maxLen⟩, ⟨"beacon_blocks", "1", "ssz"⟩⟩ src
      = some (.ok (some (.beaconBlocks []))) ∧
    SSZOutboundCodec.decode ⟨⟨maxLen⟩, ⟨"recent_beacon_blocks", "1", "ssz"⟩⟩
      src = some (.ok (some (.recentBeaconBlocks []))) ∧
    SSZOutboundCodec.decode ⟨⟨maxLen⟩, ⟨"hello", "1", "ssz"⟩⟩ src
      = some (.ok none) := by
  refine ⟨?_, ?_, ?_⟩ <;> simp [SSZOutboundCodec.decode, h]

/-- Witness for C2 on the empty byte stream. -/
theorem outbound_decode_stream_end_witness :
    SSZOutboundCodec.decode ⟨⟨5⟩, ⟨"beacon_blocks", "1", "ssz"⟩⟩ []
      = some (.ok (some (.beaconBlocks []))) ∧
    SSZOutboundCodec.decode ⟨⟨5⟩, ⟨"recent_beacon_blocks", "1", "ssz"⟩⟩ []
      = some (.ok (some (.recentBeaconBlocks []))) ∧
    SSZOutboundCodec.decode ⟨⟨5⟩, ⟨"hello", "1", "ssz"⟩⟩ []
      = some (.ok none) :=
  outbound_decode_stream_end 5 [] (by decide)

/-- Counterexample to C3: on the goodbye/1 identity the independent
error-decode entry point does not fail — fed one well-formed error frame
it successfully parses the error message. -/
theorem goodbye_error_decode_succeeds_cex :
    SSZOutboundCodec.decodeError ⟨⟨100⟩, ⟨"goodbye", "1", "ssz"⟩⟩ [1, 65]
      = .ok (some ⟨[65]⟩) ∧
    exceptIsError (SSZOutboundCodec.decodeError
      ⟨⟨100⟩, ⟨"goodbye", "1", "ssz"⟩⟩ [1, 65]) = false := by
  decide

/-- Claim C3 as amended: on goodbye/1 the normal response-decode entry
point fails with the protocol-misuse error whenever the framer itself does
not fail; the independent error-decode entry point does not consult the
identity at all, and on a well-formed error frame it succeeds. -/
theorem goodbye_decode_protocol_misuse (maxLen : Nat) (src : List Nat) :
    ((∃ r, uviDecode ⟨maxLen⟩ src = .ok r) →
      SSZOutboundCodec.decode ⟨⟨maxLen⟩, ⟨"goodbye", "1", "ssz"⟩⟩ src
        = some (.error (.invalidProtocol "GOODBYE has no response"))) ∧
    (∀ p : ProtocolId,
      SSZOutboundCodec.decodeError ⟨⟨maxLen⟩, p⟩ src
        = SSZOutboundCodec.decodeError ⟨⟨maxLen⟩, ⟨"goodbye", "1", "ssz"⟩⟩
            src) ∧
    (∀ packet rest, uviDecode ⟨maxLen⟩ src = .ok (some (packet, rest)) →
      SSZOutboundCodec.decodeError ⟨⟨maxLen⟩, ⟨"goodbye", "1", "ssz"⟩⟩ src
        = .ok (some ⟨packet⟩)) := by
  refine ⟨?_, fun p => rfl, ?_⟩
  · rintro ⟨r, hr⟩
    cases r with
    | none => simp [SSZOutboundCodec.decode, hr]
    | some pr =>
      obtain ⟨packet, rest⟩ := pr
      simp [SSZOutboundCodec.decode, hr]
  · intro packet rest h
    simp [SSZOutboundCodec.decodeError, h, ErrorMessage.decode]

/-- Witness for the amended C3 on one well-formed frame. -/
theorem goodbye_decode_protocol_misuse_witness :
    SSZOutboundCodec.decode ⟨⟨100⟩, ⟨"goodbye", "1", "ssz"⟩⟩ [1, 65]
      = some (.error (.invalidProtocol "GOODBYE has no response")) ∧
    SSZOutboundCodec.decodeError ⟨⟨100⟩, ⟨"goodbye", "1", "ssz"⟩⟩ [1, 65]
      = .ok (some ⟨[65]⟩) :=
  ⟨(goodbye_decode_protocol_misuse 100 [1, 65]).1 ⟨some ([65], []), by decide⟩,
   (goodbye_decode_protocol_misuse 100 [1, 65]).2.2 [65] [] (by decide)⟩

/-- Counterexample to C4: the outbound request encoder does not suppress
the length prefix on an empty payload — an empty recent-blocks request has
an empty SSZ payload yet encodes to the single byte `0`, not to zero wire
bytes. -/
theorem outbound_encode_empty_payload_cex :
    requestPayload (.recentBeaconBlocks ⟨[]⟩) = [] ∧
    SSZOutboundCodec.encode ⟨⟨100⟩, ⟨"recent_beacon_blocks", "1", "ssz"⟩⟩
      (.recentBeaconBlocks ⟨[]⟩) = [0] ∧
    SSZOutboundCodec.encode ⟨⟨100⟩, ⟨"recent_beacon_blocks", "1", "ssz"⟩⟩
      (.recentBeaconBlocks ⟨[]⟩) ≠ [] := by
  decide

/-- Claim C4 as amended: the inbound (response/error) encoder writes the
varint length prefix followed by the payload for a non-empty payload and
exactly zero wire bytes for an empty payload — so any Response or
ErrorResponse with an empty byte payload emits nothing — while the
outbound request encoder always writes the length prefix followed by the
payload, even when the payload is empty. -/
theorem encode_empty_payload_framing (ci : SSZInboundCodec)
    (co : SSZOutboundCodec) (item : RPCErrorResponse) (req : RPCRequest) :
    SSZInboundCodec.encode ci item
      = (if errorResponsePayload item = [] then []
         else encodeUvarint (errorResponsePayload item).length
           ++ errorResponsePayload item) ∧
    SSZOutboundCodec.encode co req
      = encodeUvarint (requestPayload req).length ++ requestPayload req := by
  constructor
  · cases item with
    | success resp =>
      cases resp <;>
        (simp only [SSZInboundCodec.encode, errorResponsePayload, uviEncode]
         split <;> simp_all)
    | invalidRequest err =>
      simp only [SSZInboundCodec.encode, errorResponsePayload, uviEncode]
      split <;> simp_all
    | serverError err =>
      simp only [SSZInboundCodec.encode, errorResponsePayload, uviEncode]
      split <;> simp_all
    | unknown err =>
      simp only [SSZInboundCodec.encode, errorResponsePayload, uviEncode]
      split <;> simp_all
  · cases req <;> simp [SSZOutboundCodec.encode, requestPayload, uviEncode]

/-- Claim C5: a frame whose declared varint length exceeds the configured
maximum fails decode with the framing violation, on the bare framer and
through both codecs, whatever payload bytes follow the prefix and whatever
the identity. -/
theorem oversize_frame_framing_violation (p : ProtocolId)
    (maxLen len : Nat) (payload : List Nat) (h : maxLen < len) :
    uviDecode ⟨maxLen⟩ (encodeUvarint len ++ payload)
      = .error .framingViolation ∧
    SSZInboundCodec.decode ⟨⟨maxLen⟩, p⟩ (encodeUvarint len ++ payload)
      = some (.error .framingViolation) ∧
    SSZOutboundCodec.decode ⟨⟨maxLen⟩, p⟩ (encodeUvarint len ++ payload)
      = some (.error .framingViolation) := by
  have hu := uviDecode_oversize ⟨maxLen⟩ len payload h
  exact ⟨hu, by simp [SSZInboundCodec.decode, hu],
    by simp [SSZOutboundCodec.decode, hu]⟩

/-- Witness for C5: a declared length of one against a zero maximum. -/
theorem oversize_frame_framing_violation_witness :
    uviDecode ⟨0⟩ (encodeUvarint 1 ++ [7]) = .error .framingViolation ∧
    SSZInboundCodec.decode ⟨⟨0⟩, ⟨"hello", "1", "ssz"⟩⟩
      (encodeUvarint 1 ++ [7]) = some (.error .framingViolation) ∧
    SSZOutboundCodec.decode ⟨⟨0⟩, ⟨"hello", "1", "ssz"⟩⟩
      (encodeUvarint 1 ++ [7]) = some (.error .framingViolation) :=
  oversize_frame_framing_violation ⟨"hello", "1", "ssz"⟩ 0 1 [7] (by decide)

/-- Any string of the `/p/t/e` shape satisfies `hasTopicForm`; with its
converse reading, `hasTopicForm s = false` shows `s` has no such shape. -/
theorem hasTopicForm_shape (p t e : String) :
    hasTopicForm ("/" ++ p ++ "/" ++ t ++ "/" ++ e) = true := by
  have h47 : ("/" : String).data = [Char.ofNat 47] := by decide
  simp only [hasTopicForm, String.data_append, h47, List.singleton_append,
    List.cons_append, List.append_assoc]
  simp [List.count_append, List.count_cons]
  omega

/-- Claim C6: the supported-encoding requirement is checked once at codec
construction (construction succeeds exactly for the ssz encoding) and not
per message (decoding is independent of the stored encoding string); and
under the precondition that the identity is one of the four known ones at
version 1, neither decode ever reaches an unreachable branch (`isSome` —
never the modelled panic). -/
theorem encoding_checked_at_construction (p : ProtocolId) (maxLen : Nat)
    (src : List Nat) (enc₁ enc₂ : String) :
    ((SSZInboundCodec.new p maxLen).isSome ↔ p.encoding = "ssz") ∧
    ((SSZOutboundCodec.new p maxLen).isSome ↔ p.encoding = "ssz") ∧
    (SSZInboundCodec.decode ⟨⟨maxLen⟩, ⟨p.messageName, p.version, enc₁⟩⟩ src
      = SSZInboundCodec.decode ⟨⟨maxLen⟩, ⟨p.messageName, p.version, enc₂⟩⟩
          src) ∧
    (SSZOutboundCodec.decode ⟨⟨maxLen⟩, ⟨p.messageName, p.version, enc₁⟩⟩ src
      = SSZOutboundCodec.decode ⟨⟨maxLen⟩, ⟨p.messageName, p.version, enc₂⟩⟩
          src) ∧
    ((p.messageName, p.version) ∈ knownIdentityPairs →
      (SSZInboundCodec.decode ⟨⟨maxLen⟩, p⟩ src).isSome = true ∧
      (SSZOutboundCodec.decode ⟨⟨maxLen⟩, p⟩ src).isSome = true) := by
  refine ⟨?_, ?_, rfl, rfl, fun h =>
    ⟨inbound_decode_known_isSome p maxLen src h,
     outbound_decode_known_isSome p maxLen src h⟩⟩
  · unfold SSZInboundCodec.new
    split <;> simp_all
  · unfold SSZOutboundCodec.new
    split <;> simp_all

/-- Witness for C6 at the hello/1 identity on the empty stream. -/
theorem encoding_checked_at_construction_witness :
    (SSZInboundCodec.decode ⟨⟨10⟩, ⟨"hello", "1", "ssz"⟩⟩ []).isSome = true ∧
    (SSZOutboundCodec.decode ⟨⟨10⟩, ⟨"hello", "1", "ssz"⟩⟩ []).isSome
      = true :=
  (encoding_checked_at_construction ⟨"hello", "1", "ssz"⟩ 10 [] "ssz"
    "other").2.2.2.2 (by decide)

/-- Claim C7: while running, one poll re-emits a ready swarm event as the
matching normalized `Libp2pEvent` — a gossip message becomes
`pubsubMessage` with source, topics and message preserved; RPC, dialed and
disconnected events keep their peer and payload — and a not-ready swarm
yields not-ready to the caller. -/
theorem service_poll_normalizes_events (source : PeerId)
    (topics : List TopicHash) (message : PubsubData) (peer : PeerId)
    (event : RPCEvent) :
    servicePoll (.readySome (.gossipMessage source topics message))
      = .ready (.pubsubMessage source topics message) ∧
    servicePoll (.readySome (.rpc peer event)) = .ready (.rpc peer event) ∧
    servicePoll (.readySome (.peerDialed peer)) = .ready (.peerDialed peer) ∧
    servicePoll (.readySome (.peerDisconnected peer))
      = .ready (.peerDisconnected peer) ∧
    servicePoll .notReady = .notReady :=
  ⟨rfl, rfl, rfl, rfl, rfl⟩

/-- Claim C8: a failed listen bind aborts startup with an error; with the
bind succeeding, startup completes whatever the dial outcomes are, and the
dial attempts are exactly the configured peer addresses, one each. -/
theorem service_new_bind_and_dial (env : NetEnv) (config : NetworkConfig)
    (d : String → Bool) :
    (env.listenOk = false →
      serviceNew env config
        = .error "Libp2p was unable to listen on the given listen address.") ∧
    (env.listenOk = true →
      ∃ r, serviceNew env config = .ok r
        ∧ r.dialAttempts = config.libp2pNodes) ∧
    serviceNew { env with dialOk := d } config = serviceNew env config := by
  refine ⟨fun h => by simp [serviceNew, h], fun h => ?_, rfl⟩
  exact ⟨⟨config.libp2pNodes, serviceTopics config,
    (serviceTopics config).filter env.subscribeOk⟩, by simp [serviceNew, h],
    rfl⟩

/-- Witness for C8: two configured peers, both dials failing, startup
still completes with one dial attempt recorded per peer. -/
theorem service_new_bind_and_dial_witness :
    ∃ r, serviceNew ⟨true, fun _ => false, fun _ => true⟩
        ⟨"addr", 9000, ["peer1", "peer2"], []⟩ = .ok r
      ∧ r.dialAttempts = ["peer1", "peer2"] :=
  (service_new_bind_and_dial ⟨true, fun _ => false, fun _ => true⟩
    ⟨"addr", 9000, ["peer1", "peer2"], []⟩ (fun _ => true)).2.1 rfl

/-- Counterexample to C9: an operator-configured extra topic is subscribed
under its verbatim name, which need not have the
`/prefix/topic/postfix` form — with one extra topic `"x"`, the attempted
subscription list contains the bare string `"x"`, which has no such form
(`hasTopicForm_shape` shows every string of that form satisfies
`hasTopicForm`). -/
theorem extra_topic_without_form_cex :
    "x" ∈ serviceTopics ⟨"addr", 9000, [], ["x"]⟩
      ∧ hasTopicForm "x" = false := by
  decide

/-- Claim C9 as amended: subscription is attempted for exactly the five
core topics plus one per operator-configured extra (five plus N), the five
core topic strings have the `/prefix/topic/postfix` form, the extras are
used verbatim, and each topic's subscription outcome is independent of the
others. -/
theorem service_topics_subscription (env : NetEnv)
    (config : NetworkConfig) :
    (serviceTopics config).length = 5 + config.topics.length ∧
    ((serviceTopics config).take 5).all hasTopicForm = true ∧
    (serviceTopics config).drop 5 = config.topics ∧
    (env.listenOk = true →
      ∃ r, serviceNew env config = .ok r
        ∧ r.attemptedTopics = serviceTopics config
        ∧ ∀ t, t ∈ r.subscribedTopics
            ↔ t ∈ serviceTopics config ∧ env.subscribeOk t = true) := by
  refine ⟨by simp [serviceTopics]; omega, ?_, rfl, fun h => ?_⟩
  · exact (by decide :
      ([topicBuilder BEACON_BLOCK_TOPIC, topicBuilder BEACON_ATTESTATION_TOPIC,
        topicBuilder VOLUNTARY_EXIT_TOPIC, topicBuilder PROPOSER_SLASHING_TOPIC,
        topicBuilder ATTESTER_SLASHING_TOPIC].all hasTopicForm) = true)
  · refine ⟨⟨config.libp2pNodes, serviceTopics config,
      (serviceTopics config).filter env.subscribeOk⟩,
      by simp [serviceNew, h], rfl, fun t => ?_⟩
    simp [List.mem_filter]

/-- Witness for the amended C9: one extra topic whose subscription fails
while the five core subscriptions succeed. -/
theorem service_topics_subscription_witness :
    ∃ r, serviceNew ⟨true, fun _ => true, fun s => decide (s ≠ "x")⟩
        ⟨"addr", 9000, [], ["x"]⟩ = .ok r
      ∧ r.attemptedTopics = serviceTopics ⟨"addr", 9000, [], ["x"]⟩
      ∧ ∀ t, t ∈ r.subscribedTopics
          ↔ t ∈ serviceTopics ⟨"addr", 9000, [], ["x"]⟩
            ∧ (fun s => decide (s ≠ "x")) t = true :=
  (service_topics_subscription ⟨true, fun _ => true, fun s => decide (s ≠ "x")⟩
    ⟨"addr", 9000, [], ["x"]⟩).2.2.2 rfl

/-- Claim C10: a poll hands its consumer only a ready event or not-ready —
never a stream error and never a normal end-of-stream item; a swarm error
becomes not-ready, and the swarm stream ending panics. -/
theorem service_poll_no_error_no_end (s : SwarmPoll) :
    (servicePoll s).isErrorResult = false ∧
    (servicePoll s).isEndOfStream = false ∧
    servicePoll .errored = .notReady ∧
    servicePoll .readyNone = .panicked := by
  refine ⟨?_, ?_, rfl, rfl⟩ <;>
    (cases s with
     | readySome e => cases e <;> rfl
     | readyNone => rfl
     | notReady => rfl
     | errored => rfl)
